import Mathlib

/-!
Verification of the command REPL of `teloxide`
(`src/crates/teloxide/src/repls/commands_repl.rs`).

The file shallowly embeds the command-REPL layer. The entry points
(`CommandReplExt::repl`, `CommandReplExt::repl_with_listener`, and the
deprecated free functions `commands_repl`, `commands_repl_with_listener`)
are translated from the source file. The collaborators they call —
`Dispatcher`, `Update::filter_message().filter_command::<Cmd>()`,
`update_listeners::polling_default`, `LoggingErrorHandler` — live in other
crates whose sources are not part of this repository snapshot; those are
modelled from the specification (sections 3, 4.3, 6 and 7 of the design
document), as noted on each definition.

The dispatch loop is modelled as a deterministic trace semantics: the
update listener is a list of items (an update, a per-item stream error
flagged fatal or not, or the observation of the shutdown signal), and
running the loop yields, per consumed item, the list of observable events
(identity fetch, primary-handler invocation with its dependency registry,
default-handler invocation, error reports) plus a terminal `stopped` event.
-/

/-- The service identity (`teloxide::types::Me`): what command
classification needs from it is the bot's username. -/
structure Me where
  username : String
deriving DecidableEq

/-- A chat message (`teloxide::types::Message`): what the REPL layer needs
from it is its optional text. -/
structure Message where
  text : Option String
deriving DecidableEq

/-- An update envelope (`teloxide::types::Update`): either a Message or
some other kind of update, abstracted by a numeric tag. -/
inductive Update where
  | message (m : Message)
  | other (kind : Nat)
deriving DecidableEq

/-- Modelled from the spec: the `Requester` capability consumed by the
REPL — "request primitives sufficient to fetch ServiceIdentity once".
`get_me` is the semantics of `bot.get_me()` for a client value of type
`R`. -/
structure Requester (R : Type) where
  get_me : R → Me

/-- `Clone::clone` on a bot client: a pure client value clones to itself. -/
def Requester.clone {R : Type} (bot : R) : R := bot

/-- Modelled from the spec: the `BotCommands` capability of the caller's
command type `Cmd`. `parse text username` returns the typed command or
`none` for "not-a-command" (a missing marker, an unrecognized name, or
malformed arguments are all folded into `none`, the path
`filter_command` routes to the default handler). -/
structure BotCommands (Cmd : Type) where
  parse : String → String → Option Cmd

/-- Rust's `PhantomData<Cmd>`: a single-valued type used only as a type
hint by the deprecated free functions. -/
inductive PhantomData (Cmd : Type) where
  | mk
deriving DecidableEq

/-- The dependency registry assembled for one primary dispatch, as a fixed
record (spec §3: "at most one value per type", keys drawn from
{ApiClient, Message, ParsedCommand, ServiceIdentity}; spec §9 sanctions a
fixed struct in a statically typed setting). -/
structure Deps (R Cmd : Type) where
  bot : R
  msg : Message
  cmd : Cmd
  me : Me
deriving DecidableEq

/-- One item produced by an update listener during iteration (spec §6):
an update envelope, a per-item stream error (possibly flagged fatal by the
source), or the observation of the external shutdown signal. -/
inductive Item (SErr : Type) where
  | upd (u : Update)
  | streamErr (e : SErr) (fatal : Bool)
  | shutdown
deriving DecidableEq

/-- Modelled from the spec: an `UpdateListener` is its setup outcome — a
fatal `SetupErr` before the loop starts, or the lazy sequence of items it
will deliver (spec §6). -/
structure UpdateListener (SetupErr SErr : Type) where
  setup : Except SetupErr (List (Item SErr))

/-- Modelled from the spec: `update_listeners::polling_default(bot)` —
the standard polling update source constructed from the bot. `net` is the
semantics of the remote API: what the polling listener built from a given
client will deliver. -/
def update_listeners.polling_default {R SetupErr SErr : Type}
    (net : R → Except SetupErr (List (Item SErr))) (bot : R) :
    UpdateListener SetupErr SErr :=
  ⟨net bot⟩

/-- Modelled from the spec: `LoggingErrorHandler::with_custom_text` — an
error reporter for listener-level failures carrying a custom text. -/
structure LoggingErrorHandler where
  text : String

/-- `LoggingErrorHandler::with_custom_text(text)`. -/
def LoggingErrorHandler.with_custom_text (text : String) : LoggingErrorHandler :=
  ⟨text⟩

/-- Modelled from the spec: the handler tree
`Update::filter_message().filter_command::<Cmd>().endpoint(handler)` —
messages whose text classifies to a command of `Cmd` reach `endpoint`
with the registry bound; everything else falls through to the default
handler. `parse` is the classifier and `endpoint` the caller's handler,
already bound against the registry (spec §4.1). -/
structure HandlerTree (R Cmd HErr : Type) where
  parse : String → String → Option Cmd
  endpoint : Deps R Cmd → Except HErr Unit

/-- The handler tree the REPL builds:
`Update::filter_message().filter_command::<Cmd>().endpoint(handler)`. -/
def commandEndpointTree {R Cmd HErr : Type} (parse : String → String → Option Cmd)
    (handler : Deps R Cmd → Except HErr Unit) : HandlerTree R Cmd HErr :=
  ⟨parse, handler⟩

/-- Modelled from the spec: the built `Dispatcher` — the bot, its
`Requester` capability, the handler tree, the default handler and whether
the Ctrl-C handler is enabled (spec §4.3). -/
structure Dispatcher (R Cmd HErr : Type) where
  req : Requester R
  bot : R
  tree : HandlerTree R Cmd HErr
  defaultHandler : Update → Unit
  ctrlcEnabled : Bool

/-- Modelled from the spec: `Dispatcher::builder(bot, tree)` with the
not-yet-overridden defaults (default handler a no-op, Ctrl-C handler
disabled). -/
structure DispatcherBuilder (R Cmd HErr : Type) where
  req : Requester R
  bot : R
  tree : HandlerTree R Cmd HErr
  defaultHandler : Update → Unit
  ctrlcEnabled : Bool

/-- `Dispatcher::builder(bot, tree)`. -/
def Dispatcher.builder {R Cmd HErr : Type} (req : Requester R) (bot : R)
    (tree : HandlerTree R Cmd HErr) : DispatcherBuilder R Cmd HErr :=
  { req := req, bot := bot, tree := tree,
    defaultHandler := fun _ => (), ctrlcEnabled := false }

/-- `.default_handler(h)` on the builder. -/
def DispatcherBuilder.default_handler {R Cmd HErr : Type}
    (b : DispatcherBuilder R Cmd HErr) (h : Update → Unit) :
    DispatcherBuilder R Cmd HErr :=
  { b with defaultHandler := h }

/-- `.enable_ctrlc_handler()` on the builder. -/
def DispatcherBuilder.enable_ctrlc_handler {R Cmd HErr : Type}
    (b : DispatcherBuilder R Cmd HErr) : DispatcherBuilder R Cmd HErr :=
  { b with ctrlcEnabled := true }

/-- `.build()` on the builder. -/
def DispatcherBuilder.build {R Cmd HErr : Type}
    (b : DispatcherBuilder R Cmd HErr) : Dispatcher R Cmd HErr :=
  { req := b.req, bot := b.bot, tree := b.tree,
    defaultHandler := b.defaultHandler, ctrlcEnabled := b.ctrlcEnabled }

/-- The service identity the dispatcher's bot reports: the value the
at-most-one identity fetch returns and caches. -/
def Dispatcher.meVal {R Cmd HErr : Type} (d : Dispatcher R Cmd HErr) : Me :=
  d.req.get_me d.bot

/-- One observable event of a dispatch run (spec §3 DispatchOutcome,
refined): an identity fetch, a primary-handler invocation carrying its
dependency registry, a default-handler invocation, a tagged
handler-failure report, a tagged listener-failure report, or the terminal
transition to Stopped. -/
inductive Event (R Cmd HErr SErr : Type) where
  | fetchMe
  | primary (deps : Deps R Cmd)
  | defaultH (u : Update)
  | handlerReport (tag : String) (e : HErr)
  | listenerReport (tag : String) (text : String) (e : SErr)
  | stopped
deriving DecidableEq

/-- Whether an event is a primary-handler invocation. -/
def Event.isPrimary {R Cmd HErr SErr : Type} : Event R Cmd HErr SErr → Bool
  | .primary _ => true
  | _ => false

/-- Whether an event is a default-handler invocation. -/
def Event.isDefault {R Cmd HErr SErr : Type} : Event R Cmd HErr SErr → Bool
  | .defaultH _ => true
  | _ => false

/-- Whether an event is an identity fetch. -/
def Event.isFetchMe {R Cmd HErr SErr : Type} : Event R Cmd HErr SErr → Bool
  | .fetchMe => true
  | _ => false

/-- Whether an event is the terminal Stopped transition. -/
def Event.isStopped {R Cmd HErr SErr : Type} : Event R Cmd HErr SErr → Bool
  | .stopped => true
  | _ => false

/-- The service identity in effect for a dispatch: the cached one, or — on
the lazy first fetch — the one the bot reports. -/
def Dispatcher.cachedMe {R Cmd HErr : Type} (d : Dispatcher R Cmd HErr)
    (me? : Option Me) : Me :=
  me?.getD d.meVal

/-- The identity-fetch events of one dispatch: one fetch when the cache is
still empty, none afterwards. -/
def fetchEvents {R Cmd HErr SErr : Type} : Option Me → List (Event R Cmd HErr SErr)
  | none => [.fetchMe]
  | some _ => []

/-- Modelled from the spec: classifying and dispatching one update
envelope against a known service identity (spec §4.3 Running, steps
1–3): a Message whose text classifies to a command gets the registry
bound and the primary handler invoked — a failure is reported tagged
"handler" — while a non-Message update, a Message without text, and a
Message whose text fails classification go to the default handler. -/
def dispatchCore {R Cmd HErr SErr : Type} (d : Dispatcher R Cmd HErr)
    (me : Me) : Update → List (Event R Cmd HErr SErr)
  | .other k => [.defaultH (.other k)]
  | .message m =>
    match m.text with
    | none => [.defaultH (.message m)]
    | some t =>
      match d.tree.parse t me.username with
      | none => [.defaultH (.message m)]
      | some c =>
        match d.tree.endpoint ⟨d.bot, m, c, me⟩ with
        | .ok _ => [.primary ⟨d.bot, m, c, me⟩]
        | .error e => [.primary ⟨d.bot, m, c, me⟩, .handlerReport "handler" e]

/-- Modelled from the spec: the events of dispatching one update envelope,
together with the identity cache after it. A Message triggers the lazy
identity fetch (spec §4.3 step 2: fetched once and cached, not re-fetched
per dispatch); non-Message updates go to the default handler without
touching the identity cache. -/
def stepUpdate {R Cmd HErr SErr : Type} (d : Dispatcher R Cmd HErr)
    (me? : Option Me) (u : Update) :
    List (Event R Cmd HErr SErr) × Option Me :=
  match u with
  | .other k => (dispatchCore d (d.cachedMe me?) (.other k), me?)
  | .message m =>
    (fetchEvents me? ++ dispatchCore d (d.cachedMe me?) (.message m),
      some (d.cachedMe me?))

/-- Modelled from the spec: the dispatch loop (spec §4.3). Consumes
listener items in order and returns, per consumed item, its event list.
An update is dispatched by `stepUpdate` and the loop continues; a stream
error is reported tagged "listener" with the error reporter's text, and
the loop continues unless the source flagged it fatal; once the shutdown
signal is observed no further item is pulled. -/
def runItems {R Cmd HErr SErr : Type} (d : Dispatcher R Cmd HErr)
    (errh : LoggingErrorHandler) (me? : Option Me) :
    List (Item SErr) → List (Item SErr × List (Event R Cmd HErr SErr))
  | [] => []
  | .upd u :: rest =>
    let s : List (Event R Cmd HErr SErr) × Option Me := stepUpdate d me? u
    (.upd u, s.1) :: runItems d errh s.2 rest
  | .streamErr e fatal :: rest =>
    (.streamErr e fatal, [.listenerReport "listener" errh.text e]) ::
      (if fatal then [] else runItems d errh me? rest)
  | .shutdown :: _ => []

/-- The dispatch events of a run, flattened in order. -/
def runEvents {R Cmd HErr SErr : Type} (d : Dispatcher R Cmd HErr)
    (errh : LoggingErrorHandler) (me? : Option Me) (items : List (Item SErr)) :
    List (Event R Cmd HErr SErr) :=
  ((runItems d errh me? items).map Prod.snd).flatten

/-- The flat trace of a run: the per-item events in order, closed by the
terminal `stopped` event (spec §4.3: Stopped is terminal and always
reached — after exhaustion, a fatal stream error, or draining). -/
def runTrace {R Cmd HErr SErr : Type} (d : Dispatcher R Cmd HErr)
    (errh : LoggingErrorHandler) (me? : Option Me) (items : List (Item SErr)) :
    List (Event R Cmd HErr SErr) :=
  runEvents d errh me? items ++ [.stopped]

/-- Modelled from the spec: `Dispatcher::dispatch_with_listener` — a
fatal setup error from the listener is surfaced to the caller before any
dispatch; otherwise the loop runs over the delivered items with an empty
identity cache and the caller gets the trace. -/
def Dispatcher.dispatch_with_listener {R Cmd HErr SetupErr SErr : Type}
    (d : Dispatcher R Cmd HErr) (listener : UpdateListener SetupErr SErr)
    (errh : LoggingErrorHandler) :
    Except SetupErr (List (Event R Cmd HErr SErr)) :=
  match listener.setup with
  | .error e => .error e
  | .ok items => .ok (runTrace d errh none items)

/-- `CommandReplExt::repl_with_listener(bot, handler, listener)`
(commands_repl.rs lines 120–149): builds the dispatcher over
`Update::filter_message().filter_command::<Cmd>().endpoint(handler)`,
with `ignore_update` as default handler and the Ctrl-C handler enabled,
and dispatches with the given listener and the logging error handler with
text "An error from the update listener". -/
def CommandReplExt.repl_with_listener {R Cmd HErr SetupErr SErr : Type}
    (req : Requester R) (bc : BotCommands Cmd) (bot : R)
    (handler : Deps R Cmd → Except HErr Unit)
    (listener : UpdateListener SetupErr SErr) :
    Except SetupErr (List (Event R Cmd HErr SErr)) :=
  let ignore_update : Update → Unit := fun _ => ()
  ((((Dispatcher.builder req bot
        (commandEndpointTree bc.parse handler)).default_handler
          ignore_update).enable_ctrlc_handler).build).dispatch_with_listener
    listener
    (LoggingErrorHandler.with_custom_text "An error from the update listener")

/-- `CommandReplExt::repl(bot, handler)` (commands_repl.rs lines 102–118):
clones the bot and delegates to `repl_with_listener` with
`update_listeners::polling_default(cloned_bot)`. -/
def CommandReplExt.repl {R Cmd HErr SetupErr SErr : Type}
    (net : R → Except SetupErr (List (Item SErr)))
    (req : Requester R) (bc : BotCommands Cmd) (bot : R)
    (handler : Deps R Cmd → Except HErr Unit) :
    Except SetupErr (List (Event R Cmd HErr SErr)) :=
  let cloned_bot := Requester.clone bot
  CommandReplExt.repl_with_listener req bc bot handler
    (update_listeners.polling_default net cloned_bot)

/-- The deprecated free function
`commands_repl_with_listener(bot, handler, listener, cmd)`
(commands_repl.rs lines 267–297): discards `cmd` (`let _ = cmd;`) and
builds the same dispatcher chain as the trait method. -/
def commands_repl_with_listener {R Cmd HErr SetupErr SErr : Type}
    (req : Requester R) (bc : BotCommands Cmd) (bot : R)
    (handler : Deps R Cmd → Except HErr Unit)
    (listener : UpdateListener SetupErr SErr) (cmd : PhantomData Cmd) :
    Except SetupErr (List (Event R Cmd HErr SErr)) :=
  let _ := cmd
  let ignore_update : Update → Unit := fun _ => ()
  ((((Dispatcher.builder req bot
        (commandEndpointTree bc.parse handler)).default_handler
          ignore_update).enable_ctrlc_handler).build).dispatch_with_listener
    listener
    (LoggingErrorHandler.with_custom_text "An error from the update listener")

/-- The deprecated free function `commands_repl(bot, handler, cmd)`
(commands_repl.rs lines 202–214): clones the bot and delegates to
`commands_repl_with_listener` with `polling_default(cloned_bot)`. -/
def commands_repl {R Cmd HErr SetupErr SErr : Type}
    (net : R → Except SetupErr (List (Item SErr)))
    (req : Requester R) (bc : BotCommands Cmd) (bot : R)
    (handler : Deps R Cmd → Except HErr Unit) (cmd : PhantomData Cmd) :
    Except SetupErr (List (Event R Cmd HErr SErr)) :=
  let cloned_bot := Requester.clone bot
  commands_repl_with_listener req bc bot handler
    (update_listeners.polling_default net cloned_bot) cmd

/-- Whether an update is command-bearing for this dispatcher: a Message
whose text classifies to a known command of the caller's command type
(classified against the cached service identity's username). -/
def Dispatcher.commandBearing {R Cmd HErr : Type} (d : Dispatcher R Cmd HErr) :
    Update → Bool
  | .message m =>
    match m.text with
    | some t => (d.tree.parse t d.meVal.username).isSome
    | none => false
  | .other _ => false

/-- Primary-handler invocations in a run result: zero when setup failed
(the caller got the error and no dispatch happened). -/
def primaryCount {R Cmd HErr SetupErr SErr : Type} :
    Except SetupErr (List (Event R Cmd HErr SErr)) → Nat
  | .error _ => 0
  | .ok tr => tr.countP (fun ev => ev.isPrimary)

/-- Default-handler invocations in a run result: zero when setup failed. -/
def defaultCount {R Cmd HErr SetupErr SErr : Type} :
    Except SetupErr (List (Event R Cmd HErr SErr)) → Nat
  | .error _ => 0
  | .ok tr => tr.countP (fun ev => ev.isDefault)

/-- A small concrete command type used to instantiate the generic
development: the commands `/help` and `/start`. -/
inductive DemoCmd where
  | help
  | start
deriving DecidableEq

/-- A concrete classifier for `DemoCmd`: recognizes exactly the texts
"/help" and "/start", independent of the bot username. -/
def demoParse : String → String → Option DemoCmd :=
  fun text _ =>
    if text = "/help" then some DemoCmd.help
    else if text = "/start" then some DemoCmd.start
    else none

/-- A concrete `Requester` over `Nat` bot values: every bot reports the
identity with username "demo_bot". -/
def demoReq : Requester Nat :=
  ⟨fun _ => ⟨"demo_bot"⟩⟩

/-- The `BotCommands` capability of `DemoCmd`. -/
def demoBC : BotCommands DemoCmd :=
  ⟨demoParse⟩

/-- A concrete always-succeeding handler. -/
def demoOkHandler : Deps Nat DemoCmd → Except Nat Unit :=
  fun _ => Except.ok ()

/-- A concrete always-failing handler, failing with error code 7. -/
def demoFailHandler : Deps Nat DemoCmd → Except Nat Unit :=
  fun _ => Except.error 7

/-- The dispatcher the REPL builds for bot 0 with the always-succeeding
handler over `DemoCmd`. -/
def demoDispatcher : Dispatcher Nat DemoCmd Nat :=
  (((Dispatcher.builder demoReq 0
      (commandEndpointTree demoParse demoOkHandler)).default_handler
        (fun _ => ())).enable_ctrlc_handler).build

/-- The dispatcher the REPL builds for bot 0 with the always-failing
handler over `DemoCmd`. -/
def demoFailDispatcher : Dispatcher Nat DemoCmd Nat :=
  (((Dispatcher.builder demoReq 0
      (commandEndpointTree demoParse demoFailHandler)).default_handler
        (fun _ => ())).enable_ctrlc_handler).build

/-- The listener error reporter the REPL installs. -/
def demoErrH : LoggingErrorHandler :=
  LoggingErrorHandler.with_custom_text "An error from the update listener"

/-- The message "/help". -/
def helpMsg : Message := ⟨some "/help"⟩

/-- The message "hello". -/
def helloMsg : Message := ⟨some "hello"⟩

/-- The input sequence [Message("/help"), Message("hello"),
Message("/help")] of the scenario in spec §8. -/
def scenarioItems : List (Item Nat) :=
  [Item.upd (Update.message helpMsg),
   Item.upd (Update.message helloMsg),
   Item.upd (Update.message helpMsg)]

/-- The dependency registry bound for a "/help" dispatch of the demo
dispatcher. -/
def demoHelpDeps : Deps Nat DemoCmd :=
  ⟨0, helpMsg, DemoCmd.help, ⟨"demo_bot"⟩⟩

/-- The per-item trace of the first "/help" dispatch of a demo run: the
lazy identity fetch followed by the primary invocation. -/
def demoHelpTrace : List (Event Nat DemoCmd Nat Nat) :=
  [Event.fetchMe, Event.primary demoHelpDeps]

section RunLemmas

variable {R Cmd HErr SErr SetupErr : Type}

/-- On any cache state reachable from the empty cache, the identity in
effect is the one the bot reports. -/
lemma cachedMe_eq_of_good (d : Dispatcher R Cmd HErr) (me? : Option Me)
    (hst : me? = none ∨ me? = some d.meVal) : d.cachedMe me? = d.meVal := by
  rcases hst with h | h <;> subst h <;> rfl

/-- The cache already holding an identity is left as is by a lookup. -/
lemma cachedMe_some (d : Dispatcher R Cmd HErr) (me : Me) :
    d.cachedMe (some me) = me := rfl

/-- Fetch events satisfy no predicate that rejects `fetchMe`. -/
lemma fetchEvents_countP_eq_zero (me? : Option Me)
    (p : Event R Cmd HErr SErr → Bool) (hp : p Event.fetchMe = false) :
    (fetchEvents me? : List (Event R Cmd HErr SErr)).countP p = 0 := by
  cases me? <;> simp [fetchEvents, List.countP_cons, hp]

/-- Dispatching one update emits no event beyond default-handler
invocations, primary invocations and handler reports. -/
lemma dispatchCore_countP_eq_zero (d : Dispatcher R Cmd HErr) (me : Me)
    (u : Update) (p : Event R Cmd HErr SErr → Bool)
    (h1 : ∀ v, p (Event.defaultH v) = false)
    (h2 : ∀ dp, p (Event.primary dp) = false)
    (h3 : ∀ tag e, p (Event.handlerReport tag e) = false) :
    (dispatchCore d me u : List (Event R Cmd HErr SErr)).countP p = 0 := by
  cases u with
  | other k => simp [dispatchCore, List.countP_cons, h1]
  | message m =>
    cases htext : m.text with
    | none => simp [dispatchCore, htext, List.countP_cons, h1]
    | some t =>
      cases hp2 : d.tree.parse t me.username with
      | none => simp [dispatchCore, htext, hp2, List.countP_cons, h1]
      | some c =>
        cases he : d.tree.endpoint ⟨d.bot, m, c, me⟩ with
        | ok v => simp [dispatchCore, htext, hp2, he, List.countP_cons, h2]
        | error e =>
          simp [dispatchCore, htext, hp2, he, List.countP_cons, h2, h3]

/-- Dispatching one update invokes the primary handler at most once. -/
lemma dispatchCore_countP_primary_le (d : Dispatcher R Cmd HErr) (me : Me)
    (u : Update) :
    (dispatchCore d me u : List (Event R Cmd HErr SErr)).countP
      Event.isPrimary ≤ 1 := by
  cases u with
  | other k => simp [dispatchCore, List.countP_cons, Event.isPrimary]
  | message m =>
    cases htext : m.text with
    | none => simp [dispatchCore, htext, List.countP_cons, Event.isPrimary]
    | some t =>
      cases hp2 : d.tree.parse t me.username with
      | none => simp [dispatchCore, htext, hp2, List.countP_cons, Event.isPrimary]
      | some c =>
        cases he : d.tree.endpoint ⟨d.bot, m, c, me⟩ with
        | ok v =>
          simp [dispatchCore, htext, hp2, he, List.countP_cons, Event.isPrimary]
        | error e =>
          simp [dispatchCore, htext, hp2, he, List.countP_cons, Event.isPrimary]

/-- Dispatching a command-bearing Message invokes the primary handler
exactly once, with the registry holding the bot, that Message, its parsed
command and the identity in effect. -/
lemma dispatchCore_command_events (d : Dispatcher R Cmd HErr) (me : Me)
    (m : Message) (t : String) (c : Cmd) (ht : m.text = some t)
    (hc : d.tree.parse t me.username = some c) :
    (dispatchCore d me (Update.message m) :
        List (Event R Cmd HErr SErr)).countP Event.isPrimary = 1 ∧
      Event.primary ⟨d.bot, m, c, me⟩ ∈
        (dispatchCore d me (Update.message m) :
          List (Event R Cmd HErr SErr)) := by
  cases he : d.tree.endpoint ⟨d.bot, m, c, me⟩ <;>
    simp [dispatchCore, ht, hc, he, List.countP_cons, Event.isPrimary]

/-- Dispatching a non-command-bearing update never invokes the primary
handler and invokes the default handler exactly once. -/
lemma dispatchCore_noncommand_events (d : Dispatcher R Cmd HErr) (u : Update)
    (h : d.commandBearing u = false) :
    (dispatchCore d d.meVal u : List (Event R Cmd HErr SErr)).countP
        Event.isPrimary = 0 ∧
      (dispatchCore d d.meVal u : List (Event R Cmd HErr SErr)).countP
        Event.isDefault = 1 := by
  cases u with
  | other k =>
    simp [dispatchCore, List.countP_cons, Event.isPrimary, Event.isDefault]
  | message m =>
    cases htext : m.text with
    | none =>
      simp [dispatchCore, htext, List.countP_cons, Event.isPrimary,
        Event.isDefault]
    | some t =>
      cases hp2 : d.tree.parse t d.meVal.username with
      | none =>
        simp [dispatchCore, htext, hp2, List.countP_cons, Event.isPrimary,
          Event.isDefault]
      | some c =>
        exfalso
        simp [Dispatcher.commandBearing, htext, hp2] at h

/-- Every handler report a dispatch emits is tagged "handler". -/
lemma dispatchCore_report_tag (d : Dispatcher R Cmd HErr) (me : Me)
    (u : Update) (tag : String) (e : HErr)
    (h : Event.handlerReport tag e ∈
      (dispatchCore d me u : List (Event R Cmd HErr SErr))) :
    tag = "handler" := by
  cases u with
  | other k => simp [dispatchCore] at h
  | message m =>
    cases htext : m.text with
    | none => simp [dispatchCore, htext] at h
    | some t =>
      cases hp2 : d.tree.parse t me.username with
      | none => simp [dispatchCore, htext, hp2] at h
      | some c =>
        cases he : d.tree.endpoint ⟨d.bot, m, c, me⟩ with
        | ok v => simp [dispatchCore, htext, hp2, he] at h
        | error e2 =>
          simp [dispatchCore, htext, hp2, he] at h
          exact h.1

end RunLemmas

section LoopLemmas

variable {R Cmd HErr SErr SetupErr : Type}

/-- Unfolding the run events on an empty item list. -/
lemma runEvents_nil (d : Dispatcher R Cmd HErr) (errh : LoggingErrorHandler) :
    runEvents d errh (none : Option Me) ([] : List (Item SErr)) = [] := rfl

/-- Unfolding the run events on a leading non-Message update. -/
lemma runEvents_cons_other (d : Dispatcher R Cmd HErr)
    (errh : LoggingErrorHandler) (me? : Option Me) (k : Nat)
    (rest : List (Item SErr)) :
    runEvents d errh me? (Item.upd (Update.other k) :: rest) =
      dispatchCore d (d.cachedMe me?) (Update.other k) ++
        runEvents d errh me? rest := rfl

/-- Unfolding the run events on a leading Message update. -/
lemma runEvents_cons_message (d : Dispatcher R Cmd HErr)
    (errh : LoggingErrorHandler) (me? : Option Me) (m : Message)
    (rest : List (Item SErr)) :
    runEvents d errh me? (Item.upd (Update.message m) :: rest) =
      (fetchEvents me? ++ dispatchCore d (d.cachedMe me?) (Update.message m)) ++
        runEvents d errh (some (d.cachedMe me?)) rest := rfl

/-- Unfolding the run events on a leading stream error. -/
lemma runEvents_cons_streamErr (d : Dispatcher R Cmd HErr)
    (errh : LoggingErrorHandler) (me? : Option Me) (e : SErr) (fatal : Bool)
    (rest : List (Item SErr)) :
    runEvents d errh me? (Item.streamErr e fatal :: rest) =
      Event.listenerReport "listener" errh.text e ::
        (if fatal then [] else runEvents d errh me? rest) := by
  cases fatal <;> simp [runEvents, runItems]

/-- Unfolding the run events once the shutdown signal is observed. -/
lemma runEvents_cons_shutdown (d : Dispatcher R Cmd HErr)
    (errh : LoggingErrorHandler) (me? : Option Me)
    (rest : List (Item SErr)) :
    runEvents d errh me? (Item.shutdown :: rest) = [] := rfl

/-- Every consumed update's per-item trace is its dispatch against the
bot-reported identity, preceded by at most one identity fetch. -/
lemma runItems_upd_mem (d : Dispatcher R Cmd HErr)
    (errh : LoggingErrorHandler) :
    ∀ (items : List (Item SErr)) (me? : Option Me),
      (me? = none ∨ me? = some d.meVal) →
      ∀ (u : Update) (tr : List (Event R Cmd HErr SErr)),
        (Item.upd u, tr) ∈ runItems d errh me? items →
        ∃ fe, tr = fe ++ dispatchCore d d.meVal u ∧
          (fe = [] ∨ fe = [Event.fetchMe]) := by
  intro items
  induction items with
  | nil =>
    intro me? hst u tr h
    simp [runItems] at h
  | cons it rest ih =>
    intro me? hst u tr h
    cases it with
    | upd u2 =>
      simp only [runItems, List.mem_cons, Prod.mk.injEq, Item.upd.injEq] at h
      rcases h with ⟨h1, h2⟩ | htail
      · subst h1
        cases u with
        | other k =>
          simp only [stepUpdate] at h2
          rw [cachedMe_eq_of_good d me? hst] at h2
          exact ⟨[], by simpa using h2, Or.inl rfl⟩
        | message m =>
          simp only [stepUpdate] at h2
          rw [cachedMe_eq_of_good d me? hst] at h2
          refine ⟨fetchEvents me?, h2, ?_⟩
          cases me? <;> simp [fetchEvents]
      · have hst2 : ((stepUpdate d me? u2 :
            List (Event R Cmd HErr SErr) × Option Me)).2 = none ∨
            ((stepUpdate d me? u2 :
              List (Event R Cmd HErr SErr) × Option Me)).2 = some d.meVal := by
          cases u2 with
          | other k => simpa [stepUpdate] using hst
          | message m =>
            right
            simp [stepUpdate, cachedMe_eq_of_good d me? hst]
        exact ih _ hst2 u tr htail
    | streamErr e fatal =>
      cases fatal with
      | true => simp [runItems] at h
      | false =>
        simp only [runItems, List.mem_cons, Prod.mk.injEq] at h
        rcases h with ⟨h1, h2⟩ | htail
        · exact absurd h1 (by simp)
        · exact ih me? hst u tr (by simpa using htail)
    | shutdown =>
      simp [runItems] at h

end LoopLemmas

section CountLemmas

variable {R Cmd HErr SErr SetupErr : Type}

/-- The loop emits no `stopped` event while dispatching: the terminal
transition is appended only when the run ends. -/
lemma runEvents_countP_stopped (d : Dispatcher R Cmd HErr)
    (errh : LoggingErrorHandler) :
    ∀ (items : List (Item SErr)) (me? : Option Me),
      (runEvents d errh me? items).countP Event.isStopped = 0 := by
  intro items
  induction items with
  | nil => intro me?; rfl
  | cons it rest ih =>
    intro me?
    cases it with
    | upd u =>
      cases u with
      | other k =>
        rw [runEvents_cons_other, List.countP_append, ih,
          dispatchCore_countP_eq_zero d (d.cachedMe me?) (Update.other k)
            Event.isStopped (fun _ => rfl) (fun _ => rfl) (fun _ _ => rfl)]
      | message m =>
        rw [runEvents_cons_message, List.countP_append, List.countP_append, ih,
          dispatchCore_countP_eq_zero d (d.cachedMe me?) (Update.message m)
            Event.isStopped (fun _ => rfl) (fun _ => rfl) (fun _ _ => rfl),
          fetchEvents_countP_eq_zero me? Event.isStopped rfl]
    | streamErr e fatal =>
      cases fatal with
      | true =>
        simp [runEvents_cons_streamErr, List.countP_cons, Event.isStopped]
      | false =>
        simpa [runEvents_cons_streamErr, List.countP_cons, Event.isStopped]
          using ih me?
    | shutdown =>
      rw [runEvents_cons_shutdown]
      rfl

/-- Once the identity cache holds a value, the loop never fetches the
identity again. -/
lemma runEvents_fetch_cached (d : Dispatcher R Cmd HErr)
    (errh : LoggingErrorHandler) :
    ∀ (items : List (Item SErr)) (me : Me),
      (runEvents d errh (some me) items).countP Event.isFetchMe = 0 := by
  intro items
  induction items with
  | nil => intro me; rfl
  | cons it rest ih =>
    intro me
    cases it with
    | upd u =>
      cases u with
      | other k =>
        rw [runEvents_cons_other, List.countP_append, ih,
          dispatchCore_countP_eq_zero d (d.cachedMe (some me)) (Update.other k)
            Event.isFetchMe (fun _ => rfl) (fun _ => rfl) (fun _ _ => rfl)]
      | message m =>
        rw [runEvents_cons_message, cachedMe_some]
        simp only [fetchEvents, List.nil_append]
        rw [List.countP_append, ih,
          dispatchCore_countP_eq_zero d me (Update.message m)
            Event.isFetchMe (fun _ => rfl) (fun _ => rfl) (fun _ _ => rfl)]
    | streamErr e fatal =>
      cases fatal with
      | true =>
        simp [runEvents_cons_streamErr, List.countP_cons, Event.isFetchMe]
      | false =>
        simpa [runEvents_cons_streamErr, List.countP_cons, Event.isFetchMe]
          using ih me
    | shutdown =>
      rw [runEvents_cons_shutdown]
      rfl

/-- Starting from an empty identity cache, the loop fetches the service
identity at most once, however many updates it dispatches. -/
lemma runEvents_fetch_once (d : Dispatcher R Cmd HErr)
    (errh : LoggingErrorHandler) :
    ∀ items : List (Item SErr),
      (runEvents d errh (none : Option Me) items).countP Event.isFetchMe ≤ 1 := by
  intro items
  induction items with
  | nil => simp [runEvents_nil]
  | cons it rest ih =>
    cases it with
    | upd u =>
      cases u with
      | other k =>
        rw [runEvents_cons_other, List.countP_append,
          dispatchCore_countP_eq_zero d (d.cachedMe none) (Update.other k)
            Event.isFetchMe (fun _ => rfl) (fun _ => rfl) (fun _ _ => rfl)]
        simpa using ih
      | message m =>
        rw [runEvents_cons_message, List.countP_append, List.countP_append,
          dispatchCore_countP_eq_zero d (d.cachedMe none) (Update.message m)
            Event.isFetchMe (fun _ => rfl) (fun _ => rfl) (fun _ _ => rfl),
          runEvents_fetch_cached d errh rest (d.cachedMe none)]
        simp [fetchEvents, List.countP_cons, Event.isFetchMe]
    | streamErr e fatal =>
      cases fatal with
      | true =>
        simp [runEvents_cons_streamErr, List.countP_cons, Event.isFetchMe]
      | false =>
        simpa [runEvents_cons_streamErr, List.countP_cons, Event.isFetchMe]
          using ih
    | shutdown =>
      simp [runEvents_cons_shutdown]

end CountLemmas

section ClaimTheorems

variable {R Cmd HErr SErr SetupErr : Type}

/-- C1: for every update the REPL loop consumes that is a Message whose
text parses to a known command of the caller's command type, the primary
handler is invoked exactly once for that update — neither dropped nor
dispatched twice — and its dependency registry contains that Message and
its ParsedCommand (together with the bot and the cached service
identity). -/
theorem repl_dispatches_command_update_exactly_once
    (d : Dispatcher R Cmd HErr) (errh : LoggingErrorHandler)
    (items : List (Item SErr)) (m : Message)
    (tr : List (Event R Cmd HErr SErr)) (t : String) (c : Cmd)
    (hmem : (Item.upd (Update.message m), tr) ∈ runItems d errh none items)
    (ht : m.text = some t)
    (hc : d.tree.parse t d.meVal.username = some c) :
    tr.countP Event.isPrimary = 1 ∧
      Event.primary ⟨d.bot, m, c, d.meVal⟩ ∈ tr := by
  obtain ⟨fe, htr, hfe⟩ :=
    runItems_upd_mem d errh items none (Or.inl rfl) (Update.message m) tr hmem
  subst htr
  obtain ⟨h1, h2⟩ := dispatchCore_command_events d d.meVal m t c ht hc
  constructor
  · rw [List.countP_append, h1]
    rcases hfe with h | h <;> subst h <;> rfl
  · exact List.mem_append.mpr (Or.inr h2)

/-- C2: for every update the REPL loop consumes that is not a Message, or
whose message text fails command classification, the primary handler is
never invoked and the default handler is invoked exactly once for that
update. -/
theorem repl_routes_noncommand_update_to_default
    (d : Dispatcher R Cmd HErr) (errh : LoggingErrorHandler)
    (items : List (Item SErr)) (u : Update)
    (tr : List (Event R Cmd HErr SErr))
    (hmem : (Item.upd u, tr) ∈ runItems d errh none items)
    (hnc : d.commandBearing u = false) :
    tr.countP Event.isPrimary = 0 ∧ tr.countP Event.isDefault = 1 := by
  obtain ⟨fe, htr, hfe⟩ :=
    runItems_upd_mem d errh items none (Or.inl rfl) u tr hmem
  subst htr
  obtain ⟨h1, h2⟩ := dispatchCore_noncommand_events d u hnc
  have hfe0 : ∀ p : Event R Cmd HErr SErr → Bool,
      p Event.fetchMe = false → fe.countP p = 0 := by
    intro p hp
    rcases hfe with h | h <;> subst h <;> simp [List.countP_cons, hp]
  constructor
  · rw [List.countP_append, h1, hfe0 Event.isPrimary rfl]
  · rw [List.countP_append, h2, hfe0 Event.isDefault rfl]

/-- C3: on the input sequence [Message("/help"), Message("hello"),
Message("/help")] with /help registered, the loop performs exactly 2
primary-handler invocations — for the first and third updates — and
exactly 1 default-handler invocation — for the second update. -/
theorem repl_scenario_two_primary_one_default :
    (runTrace demoDispatcher demoErrH none scenarioItems).countP
        Event.isPrimary = 2 ∧
      (runTrace demoDispatcher demoErrH none scenarioItems).countP
        Event.isDefault = 1 ∧
      (runItems demoDispatcher demoErrH none scenarioItems).map
        (fun p => p.2.countP Event.isPrimary) = [1, 0, 1] ∧
      (runItems demoDispatcher demoErrH none scenarioItems).map
        (fun p => p.2.countP Event.isDefault) = [0, 1, 0] := by
  decide

/-- C4: a handler failure on one dispatch is reported tagged "handler",
never terminates the loop — the remaining items are still processed — and
the failing update is consumed with at most one primary invocation, hence
no retry. -/
theorem handler_failure_isolated_and_tagged
    (d : Dispatcher R Cmd HErr) (errh : LoggingErrorHandler) (me? : Option Me)
    (u : Update) (rest : List (Item SErr)) :
    runItems d errh me? (Item.upd u :: rest) =
        (Item.upd u, ((stepUpdate d me? u :
            List (Event R Cmd HErr SErr) × Option Me)).1) ::
          runItems d errh ((stepUpdate d me? u :
            List (Event R Cmd HErr SErr) × Option Me)).2 rest ∧
      (∀ tag e, Event.handlerReport tag e ∈
          ((stepUpdate d me? u : List (Event R Cmd HErr SErr) × Option Me)).1 →
        tag = "handler") ∧
      ((stepUpdate d me? u :
          List (Event R Cmd HErr SErr) × Option Me)).1.countP
        Event.isPrimary ≤ 1 ∧
      (∀ m t c e, u = Update.message m → m.text = some t →
        d.tree.parse t (d.cachedMe me?).username = some c →
        d.tree.endpoint ⟨d.bot, m, c, d.cachedMe me?⟩ = Except.error e →
        Event.handlerReport "handler" e ∈
          ((stepUpdate d me? u :
            List (Event R Cmd HErr SErr) × Option Me)).1) := by
  refine ⟨rfl, ?_, ?_, ?_⟩
  · intro tag e hm
    cases u with
    | other k =>
      exact dispatchCore_report_tag d (d.cachedMe me?) (Update.other k) tag e hm
    | message m =>
      simp only [stepUpdate] at hm
      rcases List.mem_append.mp hm with hf | hd
      · cases me? <;> simp [fetchEvents] at hf
      · exact dispatchCore_report_tag d (d.cachedMe me?) (Update.message m)
          tag e hd
  · cases u with
    | other k =>
      simpa [stepUpdate] using
        dispatchCore_countP_primary_le d (d.cachedMe me?) (Update.other k)
    | message m =>
      simp only [stepUpdate]
      rw [List.countP_append, fetchEvents_countP_eq_zero me? Event.isPrimary rfl]
      simpa using
        dispatchCore_countP_primary_le d (d.cachedMe me?) (Update.message m)
  · intro m t c e hu ht hc he
    subst hu
    simp only [stepUpdate]
    have hd : Event.handlerReport "handler" e ∈
        (dispatchCore d (d.cachedMe me?) (Update.message m) :
          List (Event R Cmd HErr SErr)) := by
      simp [dispatchCore, ht, hc, he]
    exact List.mem_append.mpr (Or.inr hd)

/-- C5: a per-item failure of the update source is reported tagged
"listener" with the error reporter's custom text, the loop continues
pulling unless the source marked the failure fatal — in which case no
further item is consumed — and the run still returns normally to the
caller (the report goes to the error sink, not to the caller). -/
theorem listener_error_reported_and_loop_continues_unless_fatal
    (d : Dispatcher R Cmd HErr) (errh : LoggingErrorHandler) (me? : Option Me)
    (e : SErr) (fatal : Bool) (rest : List (Item SErr)) :
    runItems d errh me? (Item.streamErr e fatal :: rest) =
        (Item.streamErr e fatal,
          [Event.listenerReport "listener" errh.text e]) ::
          (if fatal then [] else runItems d errh me? rest) ∧
      Dispatcher.dispatch_with_listener d
          (⟨Except.ok (Item.streamErr e fatal :: rest)⟩ :
            UpdateListener SetupErr SErr) errh =
        Except.ok (runTrace d errh none (Item.streamErr e fatal :: rest)) :=
  ⟨rfl, rfl⟩

/-- C6: a fatal setup error from the update source is surfaced to the
caller of the REPL entry point, and zero primary-handler and zero
default-handler invocations occur. -/
theorem fatal_setup_error_surfaced_before_dispatch
    (req : Requester R) (bc : BotCommands Cmd) (bot : R)
    (handler : Deps R Cmd → Except HErr Unit) (e : SetupErr) :
    CommandReplExt.repl_with_listener req bc bot handler
        (⟨Except.error e⟩ : UpdateListener SetupErr SErr) = Except.error e ∧
      primaryCount (CommandReplExt.repl_with_listener req bc bot handler
        (⟨Except.error e⟩ : UpdateListener SetupErr SErr)) = 0 ∧
      defaultCount (CommandReplExt.repl_with_listener req bc bot handler
        (⟨Except.error e⟩ : UpdateListener SetupErr SErr)) = 0 :=
  ⟨rfl, rfl, rfl⟩

/-- C7: once the shutdown signal is observed the loop consumes no further
item from the source, the run's trace ends there with the terminal
`stopped` event, and in every run `stopped` is reported exactly once and
last — after all dispatch events, so every started dispatch's events are
complete before it. -/
theorem shutdown_stops_pulls_and_reports_stopped_last
    (d : Dispatcher R Cmd HErr) (errh : LoggingErrorHandler) (me? : Option Me)
    (rest : List (Item SErr)) :
    runItems d errh me? (Item.shutdown :: rest) = [] ∧
      runTrace d errh me? (Item.shutdown :: rest) = [Event.stopped] ∧
      (∀ items : List (Item SErr),
        (runTrace d errh me? items).getLast? = some Event.stopped) ∧
      (∀ items : List (Item SErr),
        (runTrace d errh me? items).countP Event.isStopped = 1) := by
  refine ⟨rfl, rfl, ?_, ?_⟩
  · intro items
    rw [runTrace, List.getLast?_concat]
  · intro items
    rw [runTrace, List.countP_append, runEvents_countP_stopped d errh items me?]
    rfl

/-- C8: over a whole REPL run the service identity is fetched at most
once, however many updates are dispatched: it is cached, not re-fetched
per dispatch. -/
theorem service_identity_fetched_at_most_once
    (d : Dispatcher R Cmd HErr) (errh : LoggingErrorHandler)
    (items : List (Item SErr)) :
    (runTrace d errh none items).countP Event.isFetchMe ≤ 1 := by
  rw [runTrace, List.countP_append]
  have h := runEvents_fetch_once d errh items
  have h2 : ([Event.stopped] :
      List (Event R Cmd HErr SErr)).countP Event.isFetchMe = 0 := rfl
  omega

/-- C9: the no-listener entry point `repl(bot, handler)` equals
`repl_with_listener(bot, handler, l)` where `l` is the default polling
update source constructed from a clone of the same bot. -/
theorem repl_defaults_to_polling_listener
    (net : R → Except SetupErr (List (Item SErr))) (req : Requester R)
    (bc : BotCommands Cmd) (bot : R)
    (handler : Deps R Cmd → Except HErr Unit) :
    CommandReplExt.repl net req bc bot handler =
      CommandReplExt.repl_with_listener req bc bot handler
        (update_listeners.polling_default net bot) := rfl

/-- C10: the deprecated free functions `commands_repl` and
`commands_repl_with_listener` are behaviorally equivalent to the trait
entry points `CommandReplExt::repl` and `CommandReplExt::repl_with_listener`
for the same command type, and the runtime value of the `cmd` PhantomData
argument has no effect on behavior. -/
theorem deprecated_free_functions_equivalent
    (net : R → Except SetupErr (List (Item SErr))) (req : Requester R)
    (bc : BotCommands Cmd) (bot : R)
    (handler : Deps R Cmd → Except HErr Unit)
    (listener : UpdateListener SetupErr SErr)
    (cmd cmd2 : PhantomData Cmd) :
    commands_repl_with_listener req bc bot handler listener cmd =
        CommandReplExt.repl_with_listener req bc bot handler listener ∧
      commands_repl net req bc bot handler cmd =
        CommandReplExt.repl net req bc bot handler ∧
      commands_repl_with_listener req bc bot handler listener cmd =
        commands_repl_with_listener req bc bot handler listener cmd2 :=
  ⟨rfl, rfl, rfl⟩

end ClaimTheorems

/-- Witness for C1: on the single-item run [Message("/help")] with the
demo dispatcher, the per-item trace is the identity fetch followed by one
primary invocation whose registry holds the message and the parsed
command. -/
theorem repl_dispatches_command_update_exactly_once_witness :
    demoHelpTrace.countP Event.isPrimary = 1 ∧
      Event.primary demoHelpDeps ∈ demoHelpTrace :=
  repl_dispatches_command_update_exactly_once demoDispatcher demoErrH
    [Item.upd (Update.message helpMsg)] helpMsg demoHelpTrace "/help"
    DemoCmd.help (by decide) (by decide) (by decide)

/-- Witness for C2: on the single-item run with a non-Message update, the
per-item trace holds no primary invocation and exactly one
default-handler invocation. -/
theorem repl_routes_noncommand_update_to_default_witness :
    ([Event.defaultH (Update.other 0)] :
        List (Event Nat DemoCmd Nat Nat)).countP Event.isPrimary = 0 ∧
      ([Event.defaultH (Update.other 0)] :
        List (Event Nat DemoCmd Nat Nat)).countP Event.isDefault = 1 :=
  repl_routes_noncommand_update_to_default demoDispatcher demoErrH
    [Item.upd (Update.other 0)] (Update.other 0)
    [Event.defaultH (Update.other 0)] (by decide) (by decide)

/-- Witness for C4: dispatching Message("/help") with the always-failing
demo handler emits the failure report tagged "handler" carrying the
handler's error code 7. -/
theorem handler_failure_isolated_and_tagged_witness :
    Event.handlerReport "handler" 7 ∈
      ((stepUpdate demoFailDispatcher none (Update.message helpMsg) :
        List (Event Nat DemoCmd Nat Nat) × Option Me)).1 :=
  (handler_failure_isolated_and_tagged demoFailDispatcher demoErrH none
      (Update.message helpMsg) ([] : List (Item Nat))).2.2.2
    helpMsg "/help" DemoCmd.help 7 rfl rfl (by decide) rfl
